import Mathlib

/-!
Shallow embedding of the cabourotte probe-registry core, checked against its
natural-language specification.

The sources embedded here are:
- the registry / component file (`Result`, `NewResult`, `Component`,
  `Component.Stop`, `removeCheck`, `AddCheck`, `RemoveCheck`),
- `healthcheck/tcp.go` (`TCPHealthcheckConfiguration`, `ValidateTCPConfig`,
  the deadline of the context created by `TCPHealthcheck.Execute`),
- `healthcheck/dns.go` (`DNSHealthcheckConfiguration`, `ValidateDNSConfig`,
  `DNSHealthcheck.Start`'s driver loop, `DNSHealthcheck.Stop`), together with
  the two HTTP control-plane variants concatenated in that file (their
  `oneOff` executors and Basic Auth middleware callbacks),
- `healthcheck/command.go` (`CommandHealthcheckConfiguration`, its
  `Validate`, and the deadline of the context created by
  `CommandHealthcheck.Execute`).

Go durations (`time.Duration`, an int64 count of nanoseconds) are embedded as
`Int`.  Wall-clock instants are passed explicitly as an `Int` parameter
standing for `time.Now()`.  Go `error` values are `Option GoError` (`none` is
Go's `nil` error).  The Go map `map[string]Healthcheck` is an association
list with Go-map lookup / delete / insert semantics.
-/

namespace Cabourotte

/-- Nanoseconds in one second, as in Go's `time.Second`. -/
def secondNs : Int := 1000000000

/-- A Go error value, reduced to its message (`err.Error()`). -/
structure GoError where
  msg : String
deriving DecidableEq

/-- The message transformation of `errors.Wrap(err, message)` /
`errors.Wrapf` from github.com/pkg/errors: the printed message of the
wrapped error is `message ++ ": " ++ err.Error()`. -/
def wrapErr (e : GoError) (message : String) : GoError :=
  { msg := message ++ ": " ++ e.msg }

/-- The `Result` struct of the registry file (part_000 lines 12-17):
`Name`, `Success`, `Timestamp`, and the private `message`.  It has no
duration field and no source field. -/
structure Result where
  name : String
  success : Bool
  timestamp : Int
  message : String
deriving DecidableEq

/-- `NewResult(healthcheck, err)` (part_000 lines 41-56).  `now` stands for
the `time.Now()` call inside the function and `name` for
`healthcheck.Name()`.  On a non-nil error the result is a failure carrying
`err.Error()`; otherwise a success carrying the literal `"success"`. -/
def NewResult (now : Int) (name : String) (err : Option GoError) : Result :=
  match err with
  | some e => { name := name, success := false, timestamp := now, message := e.msg }
  | none => { name := name, success := true, timestamp := now, message := "success" }

/-- A value implementing the `Healthcheck` interface, abstracted to what the
registry observes of it: its `Name()`, its `OneOff()` flag, and the error
results of its `Initialize()`, `Start(chan)`, `Stop()` and `Execute()`
calls (`none` = the call returns nil). -/
structure Probe where
  name : String
  oneOff : Bool
  initErr : Option GoError
  startErr : Option GoError
  stopErr : Option GoError
  execErr : Option GoError
deriving DecidableEq

/-- The registry `Component` (part_000 lines 32-38): the `Healthchecks`
map, embedded as an association list keyed by healthcheck name.  The logger
and the result channel carry no registry state and are omitted. -/
structure Component where
  healthchecks : List (String × Probe)
deriving DecidableEq

/-- Go map lookup `m[id]` on the association-list embedding. -/
def lookupCheck : List (String × Probe) → String → Option Probe
  | [], _ => none
  | (k, v) :: rest, id => if k == id then some v else lookupCheck rest id

/-- Go map `delete(m, id)` on the association-list embedding (removes every
entry with that key; entries are unique in every reachable registry state,
so this coincides with deleting the one entry). -/
def eraseCheck : List (String × Probe) → String → List (String × Probe)
  | [], _ => []
  | (k, v) :: rest, id =>
    if k == id then eraseCheck rest id else (k, v) :: eraseCheck rest id

/-- Go map insert `m[k] = v` on the association-list embedding. -/
def mapInsert (l : List (String × Probe)) (k : String) (v : Probe) :
    List (String × Probe) :=
  (k, v) :: eraseCheck l k

/-- Number of entries of the association list carrying a given name. -/
def countName : List (String × Probe) → String → Nat
  | [], _ => 0
  | (k, _) :: rest, id => (if k == id then 1 else 0) + countName rest id

/-- Observable actions performed by the registry operations, in program
order.  `lockAcquire` / `lockRelease` are `c.lock.Lock()` and the deferred
`c.lock.Unlock()`; the other events are the calls into the healthcheck and
the map mutations. -/
inductive Event where
  | initProbe (name : String)
  | lockAcquire
  | stopProbe (name : String)
  | deleteProbe (name : String)
  | startProbe (name : String)
  | insertProbe (name : String)
  | lockRelease
deriving DecidableEq

/-- `Component.removeCheck(identifier)` (part_000 lines 95-105): when an
entry with that key exists, its `Stop()` is called; a stop failure is
returned wrapped and the map is untouched; on stop success the entry is
deleted.  When no entry exists, the call is a no-op success.  Returns the
error (if any), the component after the call, and the events performed. -/
def removeCheck (c : Component) (id : String) :
    Option GoError × Component × List Event :=
  match lookupCheck c.healthchecks id with
  | some existingCheck =>
    match existingCheck.stopErr with
    | some e =>
      (some (wrapErr e ("Fail to stop healthcheck " ++ existingCheck.name)), c,
        [Event.stopProbe id])
    | none =>
      (none, { healthchecks := eraseCheck c.healthchecks id },
        [Event.stopProbe id, Event.deleteProbe id])
  | none => (none, c, [])

/-- `Component.AddCheck(healthcheck)` (part_000 lines 108-128):
`Initialize` is called first (outside the lock); then, under the writer
lock, `removeCheck` replaces any resident healthcheck with the same name,
the new healthcheck's `Start` is called, and on start success the
healthcheck is inserted into the map.  Each error return is wrapped; the
deferred unlock runs on every path after the lock was taken. -/
def addCheck (c : Component) (h : Probe) :
    Option GoError × Component × List Event :=
  match h.initErr with
  | some e =>
    (some (wrapErr e ("Fail to initialize healthcheck " ++ h.name)), c,
      [Event.initProbe h.name])
  | none =>
    match removeCheck c h.name with
    | (some e, c1, evs) =>
      (some (wrapErr e ("Fail to stop existing healthcheck " ++ h.name)), c1,
        Event.initProbe h.name :: Event.lockAcquire :: (evs ++ [Event.lockRelease]))
    | (none, c1, evs) =>
      match h.startErr with
      | some e =>
        (some (wrapErr e ("Fail to start healthcheck " ++ h.name)), c1,
          Event.initProbe h.name :: Event.lockAcquire ::
            (evs ++ [Event.startProbe h.name, Event.lockRelease]))
      | none =>
        (none, { healthchecks := mapInsert c1.healthchecks h.name h },
          Event.initProbe h.name :: Event.lockAcquire ::
            (evs ++ [Event.startProbe h.name, Event.insertProbe h.name,
              Event.lockRelease]))

/-- Wrap message used by `Component.Stop` (part_000 line 87). -/
def stopWrapMsg : String := "Fail to stop the healthcheck component"

/-- The loop body of `Component.Stop` (part_000 lines 82-89) over the list
of resident healthchecks: each healthcheck's `Stop()` is called in turn;
on the first error the function returns immediately with the wrapped
error.  The second component collects the names on which `Stop()` was
attempted, in order. -/
def stopAll : List (String × Probe) → Option GoError × List String
  | [] => (none, [])
  | (n, p) :: rest =>
    match p.stopErr with
    | some e => (some (wrapErr e stopWrapMsg), [n])
    | none =>
      let r := stopAll rest
      (r.1, n :: r.2)

/-- `Component.Stop` (part_000 lines 78-91), under the writer lock.  Go map
iteration order is unspecified; the embedding iterates in list order, one
admissible order. -/
def componentStop (c : Component) : Option GoError × List String :=
  stopAll c.healthchecks

/-- `TCPHealthcheckConfiguration` (tcp.go lines 17-26). -/
structure TCPHealthcheckConfiguration where
  name : String
  description : String
  target : String
  port : Nat
  timeout : Int
  interval : Int
  oneOff : Bool
deriving DecidableEq

/-- `ValidateTCPConfig` (tcp.go lines 34-54).  Note that the interval
checks are applied unconditionally: the `OneOff` flag is not consulted. -/
def ValidateTCPConfig (config : TCPHealthcheckConfiguration) : Option GoError :=
  if config.name = "" then
    some { msg := "The healthcheck name is missing" }
  else if config.target = "" then
    some { msg := "The healthcheck target is missing" }
  else if config.port = 0 then
    some { msg := "The healthcheck port is missing" }
  else if config.timeout = 0 then
    some { msg := "The healthcheck timeout is missing" }
  else if config.interval < 2 * secondNs then
    some { msg := "The healthcheck interval should be greater than 2 second" }
  else if config.interval < config.timeout then
    some { msg := "The healthcheck interval should be greater than the timeout" }
  else
    none

/-- Deadline, in nanoseconds from now, of the cancellation context created
by `TCPHealthcheck.Execute` (tcp.go line 129):
`context.WithTimeout(ctx, time.Duration(h.Config.Timeout))`. -/
def tcpExecuteDeadline (config : TCPHealthcheckConfiguration) : Int :=
  config.timeout

/-- `DNSHealthcheckConfiguration` (dns.go lines 15-21).  It has no timeout
field. -/
structure DNSHealthcheckConfiguration where
  name : String
  description : String
  domain : String
  interval : Int
  oneOff : Bool
deriving DecidableEq

/-- `ValidateDNSConfig` (dns.go lines 35-46).  The interval bound is the
bare literal `5` — five nanoseconds of `time.Duration` — and neither the
`OneOff` flag nor any timeout is consulted. -/
def ValidateDNSConfig (config : DNSHealthcheckConfiguration) : Option GoError :=
  if config.name = "" then
    some { msg := "The healthcheck name is missing" }
  else if config.domain = "" then
    some { msg := "The healthcheck domain is missing" }
  else if config.interval < 5 then
    some { msg := "The healthcheck interval should be greater than 5" }
  else
    none

/-- Modelled from the spec: the `Base` struct embedded in
`CommandHealthcheckConfiguration` is not under src/; its fields are taken
from its uses in command.go (`Base.Name`, `Base.Description`,
`Base.Interval`, `Base.OneOff`) and the spec's common configuration schema
(name, description, interval, one-off, source). -/
structure Base where
  name : String
  description : String
  interval : Int
  oneOff : Bool
  source : String
deriving DecidableEq

/-- `CommandHealthcheckConfiguration` (command.go lines 16-21). -/
structure CommandHealthcheckConfiguration where
  base : Base
  command : String
  arguments : List String
  timeout : Int
deriving DecidableEq

/-- `CommandHealthcheckConfiguration.Validate` (command.go lines 33-52).
Only this validator consults `OneOff`: the two interval checks run only
when the configuration is not one-off. -/
def CommandValidate (config : CommandHealthcheckConfiguration) : Option GoError :=
  if config.base.name = "" then
    some { msg := "The healthcheck name is missing" }
  else if config.command = "" then
    some { msg := "The healthcheck command is missing" }
  else if config.timeout = 0 then
    some { msg := "The healthcheck timeout is missing" }
  else if config.base.oneOff = false then
    if config.base.interval < 2 * secondNs then
      some { msg := "The healthcheck interval should be greater than 2 second" }
    else if config.base.interval < config.timeout then
      some { msg := "The healthcheck interval should be greater than the timeout" }
    else
      none
  else
    none

/-- Deadline, in nanoseconds from now, of the cancellation context created
by `CommandHealthcheck.Execute` (command.go line 107):
`context.WithTimeout(ctx, time.Duration(h.Config.Timeout)*time.Second)` —
the configured duration is multiplied by `time.Second` a second time. -/
def commandExecuteDeadline (config : CommandHealthcheckConfiguration) : Int :=
  config.timeout * secondNs

/-- A `time.Ticker`, reduced to whether `Stop()` has been called on it. -/
structure Ticker where
  stopped : Bool
deriving DecidableEq

/-- The probe's `tomb.Tomb`, reduced to whether `Kill` has put it in the
dying state. -/
structure TombState where
  dying : Bool
deriving DecidableEq

/-- `DNSHealthcheck` (dns.go lines 24-32).  `Tick` is a pointer
(`*time.Ticker`), nil until `Start` assigns it, embedded as an `Option`. -/
structure DNSHealthcheck where
  config : DNSHealthcheckConfiguration
  tick : Option Ticker
  tombState : TombState
deriving DecidableEq

/-- `NewDNSHealthcheck` (dns.go lines 127-132): only the logger and the
configuration are set; `Tick` is left nil. -/
def NewDNSHealthcheck (config : DNSHealthcheckConfiguration) : DNSHealthcheck :=
  { config := config, tick := none, tombState := { dying := false } }

/-- Effect of `DNSHealthcheck.Start` (dns.go lines 66-83) on the probe
state: `h.Tick = time.NewTicker(...)` is assigned and the driver goroutine
is launched (the driver loop itself is embedded as `driverIteration`). -/
def DNSStart (h : DNSHealthcheck) : DNSHealthcheck :=
  { h with tick := some { stopped := false } }

/-- Outcome of a call to `DNSHealthcheck.Stop`: either a Go runtime panic
or normal return with the post-call probe state. -/
inductive StopOutcome where
  | panicked (msg : String)
  | returned (h : DNSHealthcheck)
deriving DecidableEq

/-- `DNSHealthcheck.Stop` (dns.go lines 108-114): `h.Tick.Stop()`,
`h.t.Kill(nil)`, `h.t.Wait()`, `return nil`.  `h.Tick` is assigned only by
`Start`; when it is still nil, `h.Tick.Stop()` dereferences a nil pointer
and the call panics instead of returning. -/
def DNSStop (h : DNSHealthcheck) : StopOutcome :=
  match h.tick with
  | none => StopOutcome.panicked "invalid memory address or nil pointer dereference"
  | some tk =>
    StopOutcome.returned
      { h with tick := some { tk with stopped := true },
               tombState := { dying := true } }

/-- Which branch of the driver loop's select (dns.go lines 72-79) fires:
the interval tick, or the tomb's dying signal. -/
inductive DriverBranch where
  | tick
  | dying
deriving DecidableEq

/-- Outcome of one driver-loop iteration.  `emitted r` means the iteration
delivered `r` on the result channel (blocking until the consumer accepted
it); `dropped` means a pending send was abandoned because of a stop signal
(the outcome the spec prescribes for a blocked send under stop); `exited`
means the driver returned without producing a result. -/
inductive IterOutcome where
  | emitted (r : Result)
  | dropped
  | exited
deriving DecidableEq

/-- One iteration of the DNS driver loop (dns.go lines 71-80).  In the tick
branch the code runs `Execute`, builds `NewResult(h, err)` and performs the
plain blocking send `h.ChanResult <- result`: the send is not wrapped in a
select on the dying signal, so its outcome does not depend on whether a
stop is pending (`stopPendingAtSend`).  In the dying branch the driver
returns nil without building a result.  `execErr` is the error returned by
`h.Execute()` and `now` the `time.Now()` of `NewResult`. -/
def driverIteration (h : DNSHealthcheck) (now : Int) (execErr : Option GoError)
    (branch : DriverBranch) (stopPendingAtSend : Bool) : IterOutcome :=
  match branch with
  | DriverBranch.tick => IterOutcome.emitted (NewResult now h.config.name execErr)
  | DriverBranch.dying => IterOutcome.exited

/-- Result formation at the driver call site (dns.go lines 74-75):
`err := h.Execute(); result := NewResult(h, err)`.  The wall-clock duration
of the `Execute` call and the probe's source tag are ambient at this point
of any execution, but the code passes neither to `NewResult`; they are
parameters here only to make that visible. -/
def formResult (now : Int) (name : String) (err : Option GoError)
    (durationSeconds : Int) (sourceTag : String) : Result :=
  NewResult now name err

/-- Modelled from the spec: the Result value used by the first
control-plane variant (dns.go line 191 calls the three-argument
`healthcheck.NewResult(check, duration.Seconds(), err)` and then assigns
`result.Source`); that Result type, with its duration and source fields
(spec section 3, "Result (value)"), is not under src/.  The float64
seconds value is abstracted as an integer measure. -/
structure ResultV2 where
  name : String
  success : Bool
  timestamp : Int
  durationSeconds : Int
  message : String
  source : String
deriving DecidableEq

/-- Modelled from the spec: the three-argument `NewResult` used at dns.go
line 191, which is not under src/.  Per the spec's Result value it carries
the probe's name, `success = err==nil`, the emission instant, the measured
duration, and the success or failure message; the source tag is assigned
afterwards by the caller. -/
def NewResultV2 (now : Int) (name : String) (durationSeconds : Int)
    (err : Option GoError) : ResultV2 :=
  match err with
  | some e =>
    { name := name, success := false, timestamp := now,
      durationSeconds := durationSeconds, message := e.msg, source := "" }
  | none =>
    { name := name, success := true, timestamp := now,
      durationSeconds := durationSeconds, message := "success", source := "" }

/-- Body of an HTTP response produced by the control-plane handlers: the
first variant's `BasicResponse` (one message), the second variant's
`BasicResponse` (a list of messages), or a serialised Result. -/
inductive ResponseBody where
  | basicMessage (message : String)
  | messages (msgs : List String)
  | resultBody (r : ResultV2)
deriving DecidableEq

/-- What a handler returns to echo: a JSON response with a status code, or
an error value propagated to the error handler. -/
inductive HTTPResponse where
  | json (status : Nat) (body : ResponseBody)
  | err (e : GoError)
deriving DecidableEq

/-- `oneOff` of the first control-plane variant (dns.go lines 180-204):
`Initialize`, then `Execute` timed with `time.Since`, then a Result built
by the three-argument `NewResult` with `Source` overwritten to
`"one-off"`; both the failure and the success path return the Result with
status 201.  `dur` stands for the measured duration of the `Execute`
call.  The function receives no registry and no result channel. -/
def oneOffA (now dur : Int) (check : Probe) : HTTPResponse :=
  match check.initErr with
  | some e =>
    HTTPResponse.json 500 (ResponseBody.basicMessage
      ("Fail to initialize one off healthcheck " ++ check.name ++ ": " ++ e.msg))
  | none =>
    HTTPResponse.json 201 (ResponseBody.resultBody
      { NewResultV2 now check.name dur check.execErr with source := "one-off" })

/-- `oneOff` of the second control-plane variant (dns.go lines 555-571):
`Initialize`, then `Execute`; the call is not timed and no Result is
built — failures become error values and success becomes a plain textual
message response with status 201. -/
def oneOffB (check : Probe) : HTTPResponse :=
  match check.initErr with
  | some e =>
    HTTPResponse.err
      { msg := "Fail to initialize one off healthcheck " ++ check.name ++ ": " ++ e.msg }
  | none =>
    match check.execErr with
    | some e =>
      HTTPResponse.err
        { msg := "Execution of one off healthcheck " ++ check.name ++ " failed: " ++ e.msg }
    | none =>
      HTTPResponse.json 201 (ResponseBody.messages
        ["One-off healthcheck " ++ check.name ++ " successfully executed"])

/-- Whether a handler response carries a serialised Result. -/
def isResultResponse : HTTPResponse → Bool
  | HTTPResponse.json _ (ResponseBody.resultBody _) => true
  | _ => false

/-- `handleCheck` of the first control-plane variant (dns.go lines
213-222): a one-off check is dispatched to `oneOff` and the registry is
not touched; otherwise `addCheck` installs the check in the registry.  The
triple is (HTTP response, registry after handling, Results emitted on the
shared sink channel during handling) — the registry add emits nothing
synchronously, and `oneOff` has no access to the sink at all. -/
def handleCheckA (c : Component) (now dur : Int) (check : Probe) :
    HTTPResponse × Component × List Result :=
  if check.oneOff then (oneOffA now dur check, c, [])
  else
    match addCheck c check with
    | (some e, c1, _) =>
      (HTTPResponse.json 500 (ResponseBody.basicMessage
        ("Fail to start the healthcheck " ++ check.name ++ ": " ++ e.msg)), c1, [])
    | (none, c1, _) =>
      (HTTPResponse.json 201 (ResponseBody.basicMessage
        "Healthcheck successfully added"), c1, [])

/-- Configured Basic Auth credentials of the HTTP server. -/
structure BasicAuthConfig where
  username : String
  password : String
deriving DecidableEq

/-- Basic Auth middleware callback of the first control-plane variant
(dns.go lines 229-238): `subtle.ConstantTimeCompare(...) == 1` on both
credentials is string equality; on a match it returns true, otherwise it
logs and returns false. -/
def basicAuthCallbackA (cfg : BasicAuthConfig) (username password : String) : Bool :=
  if username = cfg.username ∧ password = cfg.password then true
  else false

/-- Basic Auth middleware callback of the second control-plane variant
(dns.go lines 596-605): the same comparison, but the mismatch branch logs
"Invalid Basic Auth credentials" and then returns `true, nil` — access is
granted either way. -/
def basicAuthCallbackB (cfg : BasicAuthConfig) (username password : String) : Bool :=
  if username = cfg.username ∧ password = cfg.password then true
  else true

/-! Concrete instances used by witnesses and counterexamples. -/

/-- A resident probe named "x" whose calls all succeed. -/
def probeOld : Probe :=
  { name := "x", oneOff := false, initErr := none, startErr := none,
    stopErr := none, execErr := none }

/-- A replacement probe, also named "x", whose calls all succeed (it
differs from `probeOld` in its execution outcome). -/
def probeNew : Probe :=
  { name := "x", oneOff := false, initErr := none, startErr := none,
    stopErr := none, execErr := some { msg := "lookup failed" } }

/-- A probe named "x" whose `Start` fails. -/
def probeStartFail : Probe :=
  { name := "x", oneOff := false, initErr := none,
    startErr := some { msg := "cannot start" }, stopErr := none, execErr := none }

/-- A registry in which `probeOld` is resident under "x". -/
def compX : Component := { healthchecks := [("x", probeOld)] }

/-- A probe named "a" whose `Stop` fails. -/
def probeStopFail : Probe :=
  { name := "a", oneOff := false, initErr := none, startErr := none,
    stopErr := some { msg := "boom" }, execErr := none }

/-- A probe named "b" whose `Stop` succeeds. -/
def probeStopOk : Probe :=
  { name := "b", oneOff := false, initErr := none, startErr := none,
    stopErr := none, execErr := none }

/-- A registry holding the failing probe "a" followed by the healthy probe
"b". -/
def compStop0 : Component :=
  { healthchecks := [("a", probeStopFail), ("b", probeStopOk)] }

/-- A DNS configuration whose interval is one second. -/
def dnsCfg1s : DNSHealthcheckConfiguration :=
  { name := "dns1", description := "", domain := "example.org",
    interval := secondNs, oneOff := false }

/-- A DNS configuration with a five-second interval. -/
def dnsCfg5s : DNSHealthcheckConfiguration :=
  { name := "dns1", description := "", domain := "example.org",
    interval := 5 * secondNs, oneOff := false }

/-- A freshly constructed DNS healthcheck on which `Start` was never
called: its ticker pointer is still nil. -/
def dnsCheckFresh : DNSHealthcheck := NewDNSHealthcheck dnsCfg5s

/-- The same DNS healthcheck after `Start`. -/
def dnsCheckStarted : DNSHealthcheck := DNSStart dnsCheckFresh

/-- A Command configuration whose timeout is five seconds. -/
def cmdCfg5s : CommandHealthcheckConfiguration :=
  { base := { name := "cmd1", description := "", interval := 10 * secondNs,
              oneOff := false, source := "file" },
    command := "ls", arguments := [], timeout := 5 * secondNs }

/-- A TCP configuration whose timeout is five seconds. -/
def tcpCfg5s : TCPHealthcheckConfiguration :=
  { name := "tcp1", description := "", target := "127.0.0.1", port := 80,
    timeout := 5 * secondNs, interval := 10 * secondNs, oneOff := false }

/-- A one-off probe whose calls all succeed. -/
def oneOffCheckOk : Probe :=
  { name := "oo1", oneOff := true, initErr := none, startErr := none,
    stopErr := none, execErr := none }

/-- An empty registry. -/
def compEmpty : Component := { healthchecks := [] }

/-- The configured Basic Auth credentials used in the Basic Auth
evaluations. -/
def authCfg : BasicAuthConfig := { username := "admin", password := "secret" }

/-! Helper lemmas about the association-list map operations. -/

/-- After a Go map delete, the deleted key is absent. -/
theorem lookupCheck_eraseCheck_self (l : List (String × Probe)) (id : String) :
    lookupCheck (eraseCheck l id) id = none := by
  induction l with
  | nil => rfl
  | cons kv rest ih =>
    obtain ⟨k, v⟩ := kv
    by_cases hk : k == id
    · simpa [eraseCheck, hk] using ih
    · simp [eraseCheck, lookupCheck, hk, ih]

/-- After a Go map delete, no entry with the deleted key remains. -/
theorem countName_eraseCheck_self (l : List (String × Probe)) (id : String) :
    countName (eraseCheck l id) id = 0 := by
  induction l with
  | nil => rfl
  | cons kv rest ih =>
    obtain ⟨k, v⟩ := kv
    by_cases hk : k == id
    · simpa [eraseCheck, hk] using ih
    · simp [eraseCheck, countName, hk, ih]

/-- A Go map insert makes the inserted value the one found at its key. -/
theorem lookupCheck_mapInsert_self (l : List (String × Probe)) (k : String)
    (v : Probe) : lookupCheck (mapInsert l k v) k = some v := by
  simp [mapInsert, lookupCheck]

/-- A Go map insert leaves exactly one entry at its key. -/
theorem countName_mapInsert_self (l : List (String × Probe)) (k : String)
    (v : Probe) : countName (mapInsert l k v) k = 1 := by
  simp [mapInsert, countName, countName_eraseCheck_self]

/-- Claim C1: on a call `AddCheck(h)` against a registry in which a probe
with `h`'s name is resident and whose stop succeeds, when `h`'s
initialisation and start succeed the call returns nil, its event trace is
exactly — acquire the writer lock, stop the resident probe, delete it,
start `h`, insert `h`, release the lock — so the prior probe is stopped
and removed before `h` is inserted and the lock is held across the whole
remove-then-insert; afterwards exactly one resident probe carries that
name and it is `h`, the newly started probe.  (The registry component of
this source has no running flag; its `Start` is a no-op, so every registry
is a running one.) -/
theorem addCheck_atomic_replace (c : Component) (h old : Probe)
    (hres : lookupCheck c.healthchecks h.name = some old)
    (hinit : h.initErr = none) (hstop : old.stopErr = none)
    (hstart : h.startErr = none) :
    (addCheck c h).1 = none ∧
    (addCheck c h).2.2 =
      [Event.initProbe h.name, Event.lockAcquire, Event.stopProbe h.name,
       Event.deleteProbe h.name, Event.startProbe h.name,
       Event.insertProbe h.name, Event.lockRelease] ∧
    lookupCheck (addCheck c h).2.1.healthchecks h.name = some h ∧
    countName (addCheck c h).2.1.healthchecks h.name = 1 := by
  simp [addCheck, removeCheck, hres, hinit, hstop, hstart,
    lookupCheck_mapInsert_self, countName_mapInsert_self]

/-- Witness for claim C1 at a concrete registry: `compX` holds `probeOld`
under "x" and `probeNew` (also named "x") replaces it. -/
theorem addCheck_atomic_replace_witness :
    (lookupCheck compX.healthchecks probeNew.name = some probeOld ∧
     probeNew.initErr = none ∧ probeOld.stopErr = none ∧
     probeNew.startErr = none) ∧
    ((addCheck compX probeNew).1 = none ∧
     (addCheck compX probeNew).2.2 =
       [Event.initProbe probeNew.name, Event.lockAcquire,
        Event.stopProbe probeNew.name, Event.deleteProbe probeNew.name,
        Event.startProbe probeNew.name, Event.insertProbe probeNew.name,
        Event.lockRelease] ∧
     lookupCheck (addCheck compX probeNew).2.1.healthchecks probeNew.name =
       some probeNew ∧
     countName (addCheck compX probeNew).2.1.healthchecks probeNew.name = 1) :=
  ⟨⟨by decide, rfl, rfl, rfl⟩,
    addCheck_atomic_replace compX probeNew probeOld (by decide) rfl rfl rfl⟩

/-- Claim C10: when a probe named N is resident (with a clean stop) and
`AddCheck` of a new probe with that name fails at the driver-start step,
the call returns an error and the registry is left with no probe named N
resident: the prior probe was already stopped and deleted, and it is not
restored. -/
theorem addCheck_start_failure_leaves_absent (c : Component) (h old : Probe)
    (e : GoError) (hres : lookupCheck c.healthchecks h.name = some old)
    (hinit : h.initErr = none) (hstop : old.stopErr = none)
    (hstart : h.startErr = some e) :
    (addCheck c h).1 =
      some (wrapErr e ("Fail to start healthcheck " ++ h.name)) ∧
    (addCheck c h).2.2 =
      [Event.initProbe h.name, Event.lockAcquire, Event.stopProbe h.name,
       Event.deleteProbe h.name, Event.startProbe h.name, Event.lockRelease] ∧
    lookupCheck (addCheck c h).2.1.healthchecks h.name = none := by
  simp [addCheck, removeCheck, hres, hinit, hstop, hstart,
    lookupCheck_eraseCheck_self]

/-- Witness for claim C10 at a concrete registry: `probeStartFail` (whose
`Start` fails) is added to `compX` where `probeOld` is resident under the
same name, and afterwards "x" is absent. -/
theorem addCheck_start_failure_leaves_absent_witness :
    (lookupCheck compX.healthchecks probeStartFail.name = some probeOld ∧
     probeStartFail.initErr = none ∧ probeOld.stopErr = none ∧
     probeStartFail.startErr = some { msg := "cannot start" }) ∧
    ((addCheck compX probeStartFail).1 =
       some (wrapErr { msg := "cannot start" }
         ("Fail to start healthcheck " ++ probeStartFail.name)) ∧
     (addCheck compX probeStartFail).2.2 =
       [Event.initProbe probeStartFail.name, Event.lockAcquire,
        Event.stopProbe probeStartFail.name,
        Event.deleteProbe probeStartFail.name,
        Event.startProbe probeStartFail.name, Event.lockRelease] ∧
     lookupCheck (addCheck compX probeStartFail).2.1.healthchecks
       probeStartFail.name = none) :=
  ⟨⟨by decide, rfl, rfl, rfl⟩,
    addCheck_start_failure_leaves_absent compX probeStartFail probeOld
      { msg := "cannot start" } (by decide) rfl rfl rfl⟩

/-- Claim C2, counterexample: the claim says every kind's validation
rejects an interval shorter than 2 seconds (for non-one-off
configurations), yet `ValidateDNSConfig` accepts `dnsCfg1s`, a non-one-off
DNS configuration whose interval is one second — its interval bound is the
bare literal 5 (nanoseconds). -/
theorem validate_dns_accepts_short_interval :
    ValidateDNSConfig dnsCfg1s = none ∧
    dnsCfg1s.oneOff = false ∧
    dnsCfg1s.interval < 2 * secondNs := by
  refine ⟨by decide, rfl, by decide⟩

/-- Claim C2 as amended: full characterization of the three validators in
src/.  TCP validation succeeds exactly when the name, target, port and
timeout are non-empty/non-zero, the interval is at least 2 seconds and at
least the timeout — the cadence checks apply even to one-off
configurations.  DNS validation succeeds exactly when the name and domain
are non-empty and the interval is at least the bare literal 5
(nanoseconds); it has no timeout and no one-off handling.  Command
validation succeeds exactly when the name and command are non-empty, the
timeout is non-zero, and — only for non-one-off configurations — the
interval is at least 2 seconds and at least the timeout. -/
theorem validators_characterized (t : TCPHealthcheckConfiguration)
    (d : DNSHealthcheckConfiguration) (cmd : CommandHealthcheckConfiguration) :
    (ValidateTCPConfig t = none ↔
      t.name ≠ "" ∧ t.target ≠ "" ∧ t.port ≠ 0 ∧ t.timeout ≠ 0 ∧
      2 * secondNs ≤ t.interval ∧ t.timeout ≤ t.interval) ∧
    (ValidateDNSConfig d = none ↔
      d.name ≠ "" ∧ d.domain ≠ "" ∧ 5 ≤ d.interval) ∧
    (CommandValidate cmd = none ↔
      cmd.base.name ≠ "" ∧ cmd.command ≠ "" ∧ cmd.timeout ≠ 0 ∧
      (cmd.base.oneOff = true ∨
        (2 * secondNs ≤ cmd.base.interval ∧ cmd.timeout ≤ cmd.base.interval))) := by
  refine ⟨?_, ?_, ?_⟩
  · simp only [ValidateTCPConfig]
    split_ifs <;> simp_all
  · simp only [ValidateDNSConfig]
    split_ifs <;> simp_all
  · simp only [CommandValidate]
    split_ifs <;> simp_all

/-- Claim C3, counterexample: on `dnsCheckFresh`, a DNS healthcheck on
which `Start` was never called, `Stop` dereferences the nil ticker pointer
and panics — it is not a safe no-op returning success. -/
theorem stop_before_start_panics :
    DNSStop dnsCheckFresh =
      StopOutcome.panicked "invalid memory address or nil pointer dereference" ∧
    dnsCheckFresh.tick = none := by
  exact ⟨rfl, rfl⟩

/-- Claim C3 as amended: on a probe that has been started (its ticker is
assigned), `Stop` returns success, and a second `Stop` on the resulting
state returns the same state — `Stop` is idempotent after `Start`; but on
a never-started probe it panics instead of returning success. -/
theorem stop_after_start_idempotent (h : DNSHealthcheck) (tk : Ticker)
    (htick : h.tick = some tk) :
    DNSStop h =
      StopOutcome.returned
        { h with tick := some { stopped := true },
                 tombState := { dying := true } } ∧
    DNSStop
        { h with tick := some { stopped := true },
                 tombState := { dying := true } } =
      StopOutcome.returned
        { h with tick := some { stopped := true },
                 tombState := { dying := true } } := by
  constructor
  · simp [DNSStop, htick]
  · simp [DNSStop]

/-- Witness for claim C3's amended theorem on `dnsCheckStarted`, the probe
after `Start`. -/
theorem stop_after_start_idempotent_witness :
    dnsCheckStarted.tick = some { stopped := false } ∧
    (DNSStop dnsCheckStarted =
      StopOutcome.returned
        { dnsCheckStarted with tick := some { stopped := true },
                               tombState := { dying := true } } ∧
     DNSStop
        { dnsCheckStarted with tick := some { stopped := true },
                               tombState := { dying := true } } =
      StopOutcome.returned
        { dnsCheckStarted with tick := some { stopped := true },
                               tombState := { dying := true } }) :=
  ⟨rfl, stop_after_start_idempotent dnsCheckStarted { stopped := false } rfl⟩

/-- Claim C4: evaluation of the code at the failing input.  For the
Command kind with a configured timeout of 5 seconds, the cancellation
context's deadline is `timeout * time.Second` — 5·10^18 nanoseconds, about
158 years — not the configured duration; the TCP kind uses the configured
duration exactly.  This confirms the spec's note that the Command variant
multiplies the timeout by `time.Second` a second time. -/
theorem command_deadline_double_scaled :
    cmdCfg5s.timeout = 5 * secondNs ∧
    commandExecuteDeadline cmdCfg5s = 5 * secondNs * secondNs ∧
    commandExecuteDeadline cmdCfg5s ≠ cmdCfg5s.timeout ∧
    tcpExecuteDeadline tcpCfg5s = tcpCfg5s.timeout := by
  refine ⟨rfl, rfl, by decide, rfl⟩

/-- Under `Component.Stop`, a prefix of healthchecks whose stops succeed
contributes its names to the attempted list and passes the outcome of the
rest through. -/
theorem stopAll_append_ok (pre rest : List (String × Probe))
    (hpre : ∀ q ∈ pre, q.2.stopErr = none) :
    stopAll (pre ++ rest) =
      ((stopAll rest).1, pre.map Prod.fst ++ (stopAll rest).2) := by
  induction pre with
  | nil => simp
  | cons q pre ih =>
    obtain ⟨n, p⟩ := q
    have hq : p.stopErr = none := hpre (n, p) (by simp)
    have ih' := ih (fun r hr => hpre r (List.mem_cons_of_mem _ hr))
    simp [stopAll, hq, ih']

/-- Claim C5, counterexample: in `compStop0` the resident probe "a" fails
to stop and the resident probe "b" stops cleanly; `Component.Stop` returns
the wrapped first error, but "b" is never attempted — the loop returns on
the first failure instead of continuing past it. -/
theorem component_stop_abandons_rest :
    (componentStop compStop0).1 =
      some { msg := "Fail to stop the healthcheck component: boom" } ∧
    lookupCheck compStop0.healthchecks "b" = some probeStopOk ∧
    (componentStop compStop0).2 = ["a"] ∧
    "b" ∉ (componentStop compStop0).2 := by
  refine ⟨by decide, by decide, by decide, by decide⟩

/-- Claim C5 as amended: when the resident healthchecks split as a prefix
whose stops all succeed, then a probe whose stop fails, then a remainder,
`Component.Stop` returns that first error (wrapped) and the attempted
probes are exactly the prefix plus the failing probe — the probes after
the first failure are not attempted. -/
theorem component_stop_prefix_first_error (c : Component)
    (pre : List (String × Probe)) (p : String × Probe) (e : GoError)
    (post : List (String × Probe))
    (hsplit : c.healthchecks = pre ++ p :: post)
    (hpre : ∀ q ∈ pre, q.2.stopErr = none)
    (hp : p.2.stopErr = some e) :
    (componentStop c).1 = some (wrapErr e stopWrapMsg) ∧
    (componentStop c).2 = pre.map Prod.fst ++ [p.1] := by
  obtain ⟨n, q⟩ := p
  have hrest : stopAll ((n, q) :: post) = (some (wrapErr e stopWrapMsg), [n]) := by
    simp only [stopAll]
    rw [show q.stopErr = some e from hp]
  constructor
  · simp [componentStop, hsplit, stopAll_append_ok pre ((n, q) :: post) hpre, hrest]
  · simp [componentStop, hsplit, stopAll_append_ok pre ((n, q) :: post) hpre, hrest]

/-- Witness for claim C5's amended theorem on `compStop0`: the failing
probe "a" is first, the healthy probe "b" after it. -/
theorem component_stop_prefix_first_error_witness :
    (compStop0.healthchecks =
      [] ++ ("a", probeStopFail) :: [("b", probeStopOk)] ∧
     probeStopFail.stopErr = some { msg := "boom" }) ∧
    ((componentStop compStop0).1 =
      some (wrapErr { msg := "boom" } stopWrapMsg) ∧
     (componentStop compStop0).2 =
      ([] : List (String × Probe)).map Prod.fst ++ [("a", probeStopFail).1]) :=
  ⟨⟨rfl, rfl⟩,
    component_stop_prefix_first_error compStop0 [] ("a", probeStopFail)
      { msg := "boom" } [("b", probeStopOk)] rfl (by simp) rfl⟩

/-- Claim C6, counterexample: in the DNS driver loop, with a stop signal
pending while the send would block (`stopPendingAtSend = true`), the tick
branch still delivers the Result — the send is a plain blocking channel
send, not a select against the dying signal, so the driver neither
abandons the send nor exits, contradicting the claimed drop-on-stop
behaviour. -/
theorem driver_send_ignores_pending_stop :
    driverIteration dnsCheckStarted 7 none DriverBranch.tick true =
      IterOutcome.emitted
        { name := "dns1", success := true, timestamp := 7, message := "success" } ∧
    IterOutcome.emitted
        { name := "dns1", success := true, timestamp := 7, message := "success" } ≠
      IterOutcome.dropped ∧
    IterOutcome.emitted
        { name := "dns1", success := true, timestamp := 7, message := "success" } ≠
      IterOutcome.exited := by
  refine ⟨rfl, by decide, by decide⟩

/-- Claim C6 as amended: on a tick the driver always delivers the Result,
blocking on the sink regardless of any pending stop signal — a stop does
not abandon a pending send; and on receiving the stop (dying) signal
between ticks the driver exits without emitting a final Result. -/
theorem driver_iteration_behaviour (h : DNSHealthcheck) (now : Int)
    (execErr : Option GoError) (stopPendingAtSend : Bool) :
    driverIteration h now execErr DriverBranch.tick stopPendingAtSend =
      IterOutcome.emitted (NewResult now h.config.name execErr) ∧
    driverIteration h now execErr DriverBranch.dying stopPendingAtSend =
      IterOutcome.exited :=
  ⟨rfl, rfl⟩

/-- Claim C7, counterexample: two executions that differ only in their
duration (1 s versus 2 s) and in the probe's source tag ("api" versus
"file") form identical Results — `NewResult` receives neither quantity and
the `Result` struct has no field for them, so the Result cannot carry the
execution duration or the source tag as claimed. -/
theorem result_lacks_duration_and_source :
    formResult 7 "probe1" none 1 "api" = formResult 7 "probe1" none 2 "file" ∧
    (1 : Int) ≠ 2 ∧ "api" ≠ "file" := by
  refine ⟨rfl, by decide, by decide⟩

/-- Claim C7 as amended: the Result formed from an execution outcome
carries the probe's name, success equal to whether the error is nil, the
emission timestamp, and message "success" when the error is nil and the
error's description otherwise; this source's Result carries no duration
and no source tag. -/
theorem newResult_fields (now : Int) (name : String) (err : Option GoError) :
    (NewResult now name err).name = name ∧
    ((NewResult now name err).success = true ↔ err = none) ∧
    (NewResult now name err).timestamp = now ∧
    (NewResult now name err).message =
      (match err with | some e => e.msg | none => "success") := by
  cases err <;> simp [NewResult]

/-- Claim C8, counterexample: the one-off executor of the second
control-plane variant, run on a succeeding one-off check, returns a plain
textual message response — not a synthesised Result — so the claim that
every one-off execution returns a Result with source "one-off" fails
there (the first variant does return one). -/
theorem oneoff_variantB_returns_no_result :
    oneOffB oneOffCheckOk =
      HTTPResponse.json 201 (ResponseBody.messages
        ["One-off healthcheck oo1 successfully executed"]) ∧
    isResultResponse (oneOffB oneOffCheckOk) = false ∧
    isResultResponse (oneOffA 7 3 oneOffCheckOk) = true := by
  refine ⟨rfl, rfl, rfl⟩

/-- Claim C8 as amended: handling a one-off check calls Initialize then
Execute, leaves the registry untouched and emits nothing on the shared
sink; in the first control-plane variant the call is timed and a
synthesised Result with source "one-off" is returned to the caller with
status 201, while in the second variant only a textual status message is
returned, with no timing and no Result. -/
theorem oneoff_behaviour (c : Component) (now dur : Int) (check : Probe)
    (hoo : check.oneOff = true) (hinit : check.initErr = none) :
    (handleCheckA c now dur check).2.1 = c ∧
    (handleCheckA c now dur check).2.2 = [] ∧
    (handleCheckA c now dur check).1 =
      HTTPResponse.json 201 (ResponseBody.resultBody
        { name := check.name, success := check.execErr.isNone,
          timestamp := now, durationSeconds := dur,
          message := (match check.execErr with
            | some e => e.msg
            | none => "success"),
          source := "one-off" }) ∧
    isResultResponse (oneOffB check) = false := by
  refine ⟨by simp [handleCheckA, hoo], by simp [handleCheckA, hoo], ?_, ?_⟩
  · cases hc : check.execErr <;>
      simp [handleCheckA, hoo, oneOffA, hinit, NewResultV2, hc]
  · cases hc : check.execErr <;> simp [oneOffB, hinit, hc, isResultResponse]

/-- Witness for claim C8's amended theorem on the succeeding one-off check
`oneOffCheckOk` against the empty registry. -/
theorem oneoff_behaviour_witness :
    (oneOffCheckOk.oneOff = true ∧ oneOffCheckOk.initErr = none) ∧
    ((handleCheckA compEmpty 7 3 oneOffCheckOk).2.1 = compEmpty ∧
     (handleCheckA compEmpty 7 3 oneOffCheckOk).2.2 = [] ∧
     (handleCheckA compEmpty 7 3 oneOffCheckOk).1 =
       HTTPResponse.json 201 (ResponseBody.resultBody
         { name := oneOffCheckOk.name, success := oneOffCheckOk.execErr.isNone,
           timestamp := 7, durationSeconds := 3,
           message := (match oneOffCheckOk.execErr with
             | some e => e.msg
             | none => "success"),
           source := "one-off" }) ∧
     isResultResponse (oneOffB oneOffCheckOk) = false) :=
  ⟨⟨rfl, rfl⟩, oneoff_behaviour compEmpty 7 3 oneOffCheckOk rfl rfl⟩

/-- Claim C9: evaluation of the code at the failing input.  With
configured credentials admin/secret, the second control-plane variant's
Basic Auth callback grants access (returns true) to the mismatched pair
wrong/creds — it returns true on credential mismatch — whereas the first
variant's callback denies the same pair.  This confirms the spec's note
that one variant's middleware returns true on mismatch. -/
theorem basic_auth_variantB_grants_mismatch :
    basicAuthCallbackB authCfg "wrong" "creds" = true ∧
    ¬("wrong" = authCfg.username ∧ "creds" = authCfg.password) ∧
    basicAuthCallbackA authCfg "wrong" "creds" = false ∧
    basicAuthCallbackA authCfg "admin" "secret" = true := by
  refine ⟨by decide, by decide, by decide, by decide⟩

end Cabourotte
